import Mathlib

/-!
Verification of the FYI_downloader FastAPI service (`api.py`).

The development shallowly embeds the Python source:
* strings stay strings; Python `dict.get` becomes `Option`;
* Python truthiness of an optional string is `pyTruthy`;
* the filesystem is a list of existing file paths; `os.listdir(DOWNLOAD_DIR)`
  is an explicit snapshot argument (a list of file names);
* a Python exception is the inductive `PyExc`; a function body that may
  raise returns `Except PyExc _`;
* the external yt-dlp library call (`ydl.extract_info`) is an oracle
  argument supplying its outcome.
-/

/-- Python exceptions relevant to `api.py`: `yt_dlp.utils.DownloadError`,
FastAPI's `HTTPException`, and a plain `Exception`. -/
inductive PyExc where
  | downloadError (msg : String)
  | httpException (code : Nat) (detail : String)
  | generic (msg : String)
deriving DecidableEq, Repr

/-- Python truthiness of `info.get(key)`: `None` and `""` are falsy. -/
def pyTruthy : Option String → Bool
  | none => false
  | some s => s != ""

/-- `DOWNLOAD_DIR = "downloads"` (api.py line 27). -/
def DOWNLOAD_DIR : String := "downloads"

/-- Python `s.startswith(pat)`: `pat` is a prefix of `s` (character-wise). -/
def strStarts (s pat : String) : Bool :=
  pat.toList.isPrefixOf s.toList

/-- Python `s.endswith(pat)`: `pat` is a suffix of `s` (character-wise). -/
def strEnds (s pat : String) : Bool :=
  pat.toList.isSuffixOf s.toList

/-- `os.path.join(a, b)` (posixpath): if `b` is absolute it replaces `a`;
otherwise a separator is inserted unless `a` is empty or already ends in one. -/
def osPathJoin (a b : String) : String :=
  if strStarts b "/" then b
  else if a = "" ∨ strEnds a "/" then a ++ b
  else a ++ "/" ++ b

/-- Split a character list at every `/`, keeping empty pieces, as Python
`p.split("/")` does. -/
def splitSlashAux : List Char → List Char → List (List Char)
  | acc, [] => [acc.reverse]
  | acc, c :: rest =>
    if c = '/' then acc.reverse :: splitSlashAux [] rest
    else splitSlashAux (c :: acc) rest

/-- Python `p.split("/")`. -/
def splitSlash (p : String) : List String :=
  (splitSlashAux [] p.toList).map (fun cs => String.mk cs)

/-- Join path pieces back with `/` between them. -/
def joinSlash : List String → String
  | [] => ""
  | [s] => s
  | s :: t :: rest => s ++ "/" ++ joinSlash (t :: rest)

/-- `os.path.basename(p)` (posixpath): the part after the last `/`. -/
def osPathBasename (p : String) : String :=
  (splitSlash p).getLastD ""

/-- Index of the last occurrence of `c` in `cs`, if any. -/
def lastIdxOf (cs : List Char) (c : Char) : Option Nat :=
  match cs with
  | [] => none
  | x :: xs =>
    match lastIdxOf xs c with
    | some i => some (i + 1)
    | none => if x = c then some 0 else none

/-- `os.path.splitext(p)` (posixpath): splits off the extension at the last
dot of the final path component, unless every character of that component
before the dot is itself a dot (leading dots never start an extension). -/
def splitext (p : String) : String × String :=
  let cs := p.toList
  let sepIdx : Int :=
    match lastIdxOf cs '/' with
    | some i => (i : Int)
    | none => -1
  let dotIdx : Int :=
    match lastIdxOf cs '.' with
    | some i => (i : Int)
    | none => -1
  if dotIdx > sepIdx then
    let nameStart : Nat := (sepIdx + 1).toNat
    if (List.range cs.length).any
        (fun i => decide (nameStart ≤ i) && decide ((i : Int) < dotIdx)
          && (cs.get? i != some '.')) then
      (String.mk (cs.take dotIdx.toNat), String.mk (cs.drop dotIdx.toNat))
    else (p, "")
  else (p, "")

/-- The yt-dlp options dictionary built by `get_ydl_opts` (api.py lines 36-48).
The dict literal at lines 38-45 never contains a `postprocessors` key, so that
field is `none` whenever the key is absent from the dict. -/
structure YdlOpts where
  format : String
  outtmpl : String
  quiet : Bool
  noWarnings : Bool
  noplaylist : Bool
  extractFlat : Bool
  cookiefile : Option String
  /-- content of a `postprocessors` entry, `none` when the key is absent;
  an entry would name a codec and quality, e.g. FFmpegExtractAudio/mp3/192 -/
  postprocessors : Option (List (String × String × String))
deriving DecidableEq, Repr

/-- `get_ydl_opts(output_template, cookie_file_path=None)` (api.py 36-48):
common options, plus `cookiefile` only when `cookie_file_path` is truthy.
No `postprocessors` key is ever added. -/
def getYdlOpts (outputTmpl : String) (cookieFilePath : Option String) : YdlOpts :=
  { format := "bestaudio/best"
    outtmpl := outputTmpl
    quiet := true
    noWarnings := true
    noplaylist := true
    extractFlat := true
    cookiefile := if pyTruthy cookieFilePath then cookieFilePath else none
    postprocessors := none }

/-- The metadata mapping returned by `ydl.extract_info`: the keys `api.py`
reads, each optional (`dict.get`). -/
structure Info where
  filepath : Option String
  title : Option String
  id : Option String
deriving DecidableEq, Repr

/-- `potential_filename_prefix = f"{title}-{video_id}"` (api.py 75-78), with
the `dict.get` defaults `unknown_title` / `unknown_id`. -/
def fnamePre (info : Info) : String :=
  (info.title.getD "unknown_title") ++ "-" ++ (info.id.getD "unknown_id")

/-- `found_files` (api.py 81-84): names in the directory listing that start
with `potential_filename_prefix`. The only filter is the name test; there
is no extension filter and no mode parameter. -/
def foundFiles (info : Info) (dirListing : List String) : List String :=
  dirListing.filter (fun f => strStarts f (fnamePre info))

/-- The artifact-not-found message raised at api.py line 89. -/
def artifactNotFoundMsg : String :=
  "Could not reliably determine the final downloaded file path."

/-- `blocking_download` after `extract_info` returned `info` (api.py 72-91):
use `info.get('filepath')` when truthy, otherwise scan `dirListing`
(the `os.listdir(DOWNLOAD_DIR)` snapshot) for the first prefix match,
raising a plain `Exception` when nothing matches. -/
def blockingDownload (info : Info) (dirListing : List String) : Except PyExc String :=
  if pyTruthy info.filepath then
    Except.ok (info.filepath.getD "")
  else
    match foundFiles info dirListing with
    | f :: _ => Except.ok (osPathJoin DOWNLOAD_DIR f)
    | [] => Except.error (PyExc.generic artifactNotFoundMsg)

/-- `output_template = os.path.join(DOWNLOAD_DIR, '%(title)s-%(id)s.%(ext)s')`
(api.py lines 123 and 168, identical in both endpoints). -/
def outputTemplate : String :=
  osPathJoin DOWNLOAD_DIR "%(title)s-%(id)s.%(ext)s"

/-- `NamedTemporaryFile` (api.py 57-60): the per-request cookie file is
created unconditionally, before `cookie_string` is even examined, so the
filesystem during the downloader invocation always contains `tmpName`. -/
def stagedFs (cookieString : Option String) (tmpName : String) (fs : List String) :
    List String :=
  tmpName :: fs

/-- Content written to the temporary cookie file (api.py 58-59): the
credential string when truthy, otherwise nothing. -/
def stagedContent (cookieString : Option String) : String :=
  if pyTruthy cookieString then cookieString.getD "" else ""

/-- The options `blocking_download` builds (api.py 65): `get_ydl_opts` is
always called with `cookie_file_path`, the temporary file's name. -/
def runYtDlpOpts (outputTmpl : String) (tmpName : String) : YdlOpts :=
  getYdlOpts outputTmpl (some tmpName)

/-- `run_yt_dlp_operation` (api.py 51-99) as a filesystem transformer.
`downloader` is the oracle for the blocking yt-dlp call: given the options
and the filesystem after staging, it yields the new filesystem and either a
path or an exception.  The `finally` block (97-99) removes the temporary
file when it still exists, on every outcome. -/
def runYtDlpOperationFS (cookieString : Option String) (tmpName : String)
    (downloader : YdlOpts → List String → List String × Except PyExc String)
    (fs : List String) : Except PyExc String × List String :=
  let fs1 := stagedFs cookieString tmpName fs
  let opts := runYtDlpOpts outputTemplate tmpName
  let res := downloader opts fs1
  (res.2, if res.1.contains tmpName then res.1.filter (fun p => p != tmpName) else res.1)

/-- An HTTP response of this service: the status code, and the JSON body
fields `message`, `download_url` (success) or `detail` (HTTPException). -/
structure Response where
  status : Nat
  message : Option String
  downloadUrl : Option String
  detail : Option String
deriving DecidableEq, Repr

/-- The `try` block of `download_mp3` (api.py 128-147) up to the final path:
downloader outcome, then `blocking_download`'s resolution against the
`dirListing` snapshot, then the `.mp3` extension fallback checked against
the existing paths `fs` (api.py 132-141). -/
def mp3TryBody (dlOutcome : Except PyExc Info) (dirListing fs : List String) :
    Except PyExc String :=
  match dlOutcome with
  | Except.error e => Except.error e
  | Except.ok info =>
    match blockingDownload info dirListing with
    | Except.error e => Except.error e
    | Except.ok mp3Filepath =>
      if strEnds mp3Filepath ".mp3" then Except.ok mp3Filepath
      else
        let baseName := (splitext mp3Filepath).1
        let potentialMp3Path := baseName ++ ".mp3"
        if fs.contains potentialMp3Path then Except.ok potentialMp3Path
        else Except.error (PyExc.generic
          ("MP3 file not found after conversion. Expected: " ++ potentialMp3Path))

/-- `download_mp3` (api.py 109-152): empty-URL guard, then the `try` body,
with `DownloadError` mapped to 400 and any other exception to 500. -/
def downloadMp3 (url : String) (dlOutcome : Except PyExc Info)
    (dirListing fs : List String) : Response :=
  if url = "" then
    { status := 400, message := none, downloadUrl := none
      detail := some "URL parameter is required." }
  else
    match mp3TryBody dlOutcome dirListing fs with
    | Except.ok p =>
      { status := 200, message := some "Download and conversion successful"
        downloadUrl := some ("/downloads/" ++ osPathBasename p), detail := none }
    | Except.error (PyExc.downloadError m) =>
      { status := 400, message := none, downloadUrl := none
        detail := some ("Video download error: " ++ m) }
    | Except.error (PyExc.httpException _ m) =>
      { status := 500, message := none, downloadUrl := none
        detail := some ("An unexpected error occurred: " ++ m) }
    | Except.error (PyExc.generic m) =>
      { status := 500, message := none, downloadUrl := none
        detail := some ("An unexpected error occurred: " ++ m) }

/-- The `try` block of `download_video` (api.py 171-179): downloader outcome,
`blocking_download` resolution, then the falsy-path guard at lines 174-175,
whose `HTTPException(500)` is raised inside the `try`. -/
def videoTryBody (dlOutcome : Except PyExc Info) (dirListing : List String) :
    Except PyExc String :=
  match dlOutcome with
  | Except.error e => Except.error e
  | Except.ok info =>
    match blockingDownload info dirListing with
    | Except.error e => Except.error e
    | Except.ok videoFilepath =>
      if videoFilepath = "" then
        Except.error (PyExc.httpException 500
          "Downloaded video file path could not be determined.")
      else Except.ok videoFilepath

/-- `download_video` (api.py 154-184): empty-URL guard, then the `try` body;
`except Exception` also catches the guard's `HTTPException`, wrapping it
into a 500 `An unexpected error occurred` response. -/
def downloadVideo (url : String) (dlOutcome : Except PyExc Info)
    (dirListing : List String) : Response :=
  if url = "" then
    { status := 400, message := none, downloadUrl := none
      detail := some "URL parameter is required." }
  else
    match videoTryBody dlOutcome dirListing with
    | Except.ok p =>
      { status := 200, message := some "Download successful"
        downloadUrl := some ("/downloads/" ++ osPathBasename p), detail := none }
    | Except.error (PyExc.downloadError m) =>
      { status := 400, message := none, downloadUrl := none
        detail := some ("Video download error: " ++ m) }
    | Except.error (PyExc.httpException _ m) =>
      { status := 500, message := none, downloadUrl := none
        detail := some ("An unexpected error occurred: " ++ m) }
    | Except.error (PyExc.generic m) =>
      { status := 500, message := none, downloadUrl := none
        detail := some ("An unexpected error occurred: " ++ m) }

/-- FastAPI request validation for the required query parameter `url: str`
(api.py 110, 155): a request missing a required query parameter is rejected
with status 422 (Unprocessable Entity) before the handler body runs. -/
def fastapiMissingParamResponse : Response :=
  { status := 422, message := none, downloadUrl := none, detail := some "Field required" }

/-- `GET /mp3` as dispatched by FastAPI: `none` models a request without a
`url` query parameter, `some u` a request with `url=u`. -/
def mp3Dispatch (url : Option String) (dlOutcome : Except PyExc Info)
    (dirListing fs : List String) : Response :=
  match url with
  | none => fastapiMissingParamResponse
  | some u => downloadMp3 u dlOutcome dirListing fs

/-- `GET /download-video` as dispatched by FastAPI. -/
def videoDispatch (url : Option String) (dlOutcome : Except PyExc Info)
    (dirListing : List String) : Response :=
  match url with
  | none => fastapiMissingParamResponse
  | some u => downloadVideo u dlOutcome dirListing

/-- Normalize a relative POSIX path the way the operating system resolves it:
drop empty and `.` components, let `..` cancel the preceding component. -/
def normComponents : List String → List String → List String
  | acc, [] => acc.reverse
  | acc, c :: rest =>
    if c = "" ∨ c = "." then normComponents acc rest
    else if c = ".." then
      match acc with
      | [] => normComponents [".."] rest
      | top :: tacc =>
        if top = ".." then normComponents (c :: top :: tacc) rest
        else normComponents tacc rest
    else normComponents (c :: acc) rest

/-- Resolved form of a relative path: what file the OS actually reaches. -/
def normalizePosix (p : String) : String :=
  joinSlash (normComponents [] (splitSlash p))

/-- `serve_downloaded_file` (api.py 186-198): join the filename onto
`DOWNLOAD_DIR`, 404 when no file exists at the resolved location, otherwise
serve the file at `file_path`.  `fs` holds the resolved paths of existing
files; `os.path.exists` resolves `..` components, hence the normalization.
No containment check is performed before serving. -/
def serveDownloadedFile (filename : String) (fs : List String) :
    Except Nat String :=
  let filePath := osPathJoin DOWNLOAD_DIR filename
  if fs.contains (normalizePosix filePath) then Except.ok filePath
  else Except.error 404

/-- Introduce the two endpoint-specific configurations (api.py 123+129 and
168+172): both endpoints pass the same template to `run_yt_dlp_operation`,
so the options built for a /mp3 request are those of `run_yt_dlp_operation`. -/
def mp3RequestOpts (tmpName : String) : YdlOpts :=
  runYtDlpOpts outputTemplate tmpName

/-- The options built while serving a /download-video request (api.py 168+172). -/
def videoRequestOpts (tmpName : String) : YdlOpts :=
  runYtDlpOpts outputTemplate tmpName

theorem contains_filter_bne (l : List String) (t : String) :
    (l.filter (fun p => p != t)).contains t = false := by
  induction l with
  | nil => rfl
  | cons a l ih =>
    by_cases h : a = t
    · simp [List.filter_cons, h, ih, bne]
    · simp [List.filter_cons, h, ih, bne]
      exact fun hh => h hh.symm

theorem cleanup_not_contains (l : List String) (t : String) :
    ((if l.contains t then l.filter (fun p => p != t) else l).contains t) = false := by
  cases h : l.contains t with
  | true => simp [contains_filter_bne]
  | false => simpa using h

theorem osPathJoin_dir_ne_empty (f : String) : osPathJoin DOWNLOAD_DIR f ≠ "" := by
  intro h
  unfold osPathJoin DOWNLOAD_DIR at h
  split at h
  · next hb => subst h; exact absurd hb (by decide)
  · split at h
    · next hcond => exact absurd hcond (by decide)
    · have h2 := congrArg String.length h
      simp [String.length_append] at h2
      have h3 : "downloads/".length = 10 := by decide
      omega

/-- C1: when the download result metadata lacks a truthy direct file path, the
resolver derives the prefix title-identifier, filters the directory listing by
that prefix, returns the joined path of the first match when at least one name
matches, and on zero matches raises the artifact-not-found exception, which
both endpoints surface as a 500 response. -/
theorem c1_scan_resolution (info : Info) (d fs : List String) (u : String)
    (hfp : pyTruthy info.filepath = false) (hu : u ≠ "") :
    (∀ f rest, d.filter (fun f => strStarts f (fnamePre info)) = f :: rest →
      blockingDownload info d = Except.ok (osPathJoin DOWNLOAD_DIR f))
    ∧ (d.filter (fun f => strStarts f (fnamePre info)) = [] →
        blockingDownload info d = Except.error (PyExc.generic artifactNotFoundMsg)
        ∧ (downloadMp3 u (Except.ok info) d fs).status = 500
        ∧ (downloadVideo u (Except.ok info) d).status = 500) := by
  constructor
  · intro f rest hf
    simp [blockingDownload, hfp, foundFiles, hf]
  · intro h0
    have hb : blockingDownload info d = Except.error (PyExc.generic artifactNotFoundMsg) := by
      simp [blockingDownload, hfp, foundFiles, h0]
    refine ⟨hb, ?_, ?_⟩
    · simp [downloadMp3, mp3TryBody, hu, hb]
    · simp [downloadVideo, videoTryBody, hu, hb]

/-- C1 witness: a one-element matching listing resolves to that file, and an
empty listing surfaces a 500 on the mp3 endpoint. -/
theorem c1_scan_resolution_witness :
    blockingDownload (Info.mk none (some "My Clip") (some "abc123"))
        ["My Clip-abc123.mp3"]
      = Except.ok (osPathJoin DOWNLOAD_DIR "My Clip-abc123.mp3")
    ∧ (downloadMp3 "u" (Except.ok (Info.mk none (some "My Clip") (some "abc123")))
        [] []).status = 500 :=
  ⟨(c1_scan_resolution (Info.mk none (some "My Clip") (some "abc123"))
      ["My Clip-abc123.mp3"] [] "u" (by decide) (by decide)).1
      "My Clip-abc123.mp3" [] (by decide),
   ((c1_scan_resolution (Info.mk none (some "My Clip") (some "abc123"))
      [] [] "u" (by decide) (by decide)).2 (by decide)).2.1⟩

/-- C2: when the metadata carries a truthy direct file path, the resolver
returns exactly that path, and its result does not depend on the directory
listing at all (no directory scan is consulted). -/
theorem c2_direct_path (info : Info) (fp : String) (d1 d2 : List String)
    (hfp : info.filepath = some fp) (hne : fp ≠ "") :
    blockingDownload info d1 = Except.ok fp
    ∧ blockingDownload info d1 = blockingDownload info d2 := by
  have ht : pyTruthy (some fp) = true := by simp [pyTruthy, hne]
  constructor
  · simp [blockingDownload, hfp, ht]
  · simp [blockingDownload, hfp, ht]

/-- C2 witness at a concrete metadata value and two different listings. -/
theorem c2_direct_path_witness :
    blockingDownload (Info.mk (some "downloads/x.mp4") none none) []
      = Except.ok "downloads/x.mp4"
    ∧ blockingDownload (Info.mk (some "downloads/x.mp4") none none) []
      = blockingDownload (Info.mk (some "downloads/x.mp4") none none) ["other"] :=
  c2_direct_path (Info.mk (some "downloads/x.mp4") none none) "downloads/x.mp4"
    [] ["other"] (by decide) (by decide)

/-- C3: on the mp3 endpoint, when the resolved path does not end in `.mp3`,
the endpoint serves the sibling path obtained by replacing the extension
with `.mp3` when such a file exists (its basename appears in the returned
download_url), and otherwise answers 500. -/
theorem c3_mp3_extension_fallback (u : String) (info : Info) (d fs : List String)
    (p : String) (hu : u ≠ "") (hok : blockingDownload info d = Except.ok p)
    (hext : strEnds p ".mp3" = false) :
    (fs.contains ((splitext p).1 ++ ".mp3") = true →
      downloadMp3 u (Except.ok info) d fs =
        { status := 200, message := some "Download and conversion successful"
          downloadUrl := some ("/downloads/" ++ osPathBasename ((splitext p).1 ++ ".mp3"))
          detail := none })
    ∧ (fs.contains ((splitext p).1 ++ ".mp3") = false →
        (downloadMp3 u (Except.ok info) d fs).status = 500) := by
  constructor <;> intro hc <;> simp at hc <;>
    simp [downloadMp3, mp3TryBody, hu, hok, hext, hc]

/-- C3 witness: a `.webm` resolution with an `.mp3` sibling serves the sibling;
without the sibling the endpoint answers 500. -/
theorem c3_mp3_extension_fallback_witness :
    downloadMp3 "u" (Except.ok (Info.mk (some "downloads/Song.webm") none none))
        [] ["downloads/Song.mp3"] =
      { status := 200, message := some "Download and conversion successful"
        downloadUrl := some ("/downloads/"
          ++ osPathBasename ((splitext "downloads/Song.webm").1 ++ ".mp3"))
        detail := none }
    ∧ (downloadMp3 "u" (Except.ok (Info.mk (some "downloads/Song.webm") none none))
        [] []).status = 500 :=
  ⟨(c3_mp3_extension_fallback "u" (Info.mk (some "downloads/Song.webm") none none)
      [] ["downloads/Song.mp3"] "downloads/Song.webm"
      (by decide) (by rfl) (by decide)).1 (by decide),
   (c3_mp3_extension_fallback "u" (Info.mk (some "downloads/Song.webm") none none)
      [] [] "downloads/Song.webm"
      (by decide) (by rfl) (by decide)).2 (by decide)⟩

/-- C4: the temporary credential file is absent from the filesystem after
`run_yt_dlp_operation`, whatever the downloader oracle did and returned —
a path, a downloader error, or any other exception. -/
theorem c4_credential_cleanup (c : Option String) (t : String)
    (downloader : YdlOpts → List String → List String × Except PyExc String)
    (fs : List String) :
    ((runYtDlpOperationFS c t downloader fs).2.contains t) = false := by
  simp only [runYtDlpOperationFS]
  exact cleanup_not_contains _ _

/-- C10: the resolver never yields a falsy (empty) path on success, so the
falsy-path guard of the /download-video handler is unreachable: the try body
passes the resolved path straight through. -/
theorem c10_resolver_never_falsy (info : Info) (d : List String) (p : String)
    (h : blockingDownload info d = Except.ok p) :
    p ≠ "" ∧ videoTryBody (Except.ok info) d = Except.ok p := by
  have hp : p ≠ "" := by
    have h2 := h
    unfold blockingDownload at h2
    split at h2
    · next ht =>
      cases hf : info.filepath with
      | none => rw [hf] at ht; simp [pyTruthy] at ht
      | some s =>
        rw [hf] at ht h2
        simp [pyTruthy] at ht
        simp [Option.getD] at h2
        rw [← h2]; exact ht
    · split at h2
      · next f tail hm =>
        injection h2 with h3
        rw [← h3]
        exact osPathJoin_dir_ne_empty f
      · exact absurd h2 (by simp)
  refine ⟨hp, ?_⟩
  simp [videoTryBody, h, hp]

/-- C10 witness at a concrete successful resolution. -/
theorem c10_resolver_never_falsy_witness :
    ("downloads/a.mp3" : String) ≠ ""
    ∧ videoTryBody (Except.ok (Info.mk (some "downloads/a.mp3") none none)) []
        = Except.ok "downloads/a.mp3" :=
  c10_resolver_never_falsy (Info.mk (some "downloads/a.mp3") none none) []
    "downloads/a.mp3" (by rfl)

/-- C5 counterexample: a request with the url query parameter missing is
rejected by FastAPI request validation with status 422, not the claimed 400,
on both endpoints. -/
theorem c5_missing_url_counterexample :
    (mp3Dispatch none (Except.ok (Info.mk none none none)) [] []).status = 422
    ∧ (videoDispatch none (Except.ok (Info.mk none none none)) []).status = 422
    ∧ (422 : Nat) ≠ 400 :=
  ⟨rfl, rfl, by decide⟩

/-- C5 (amended): an empty url yields 400 on both endpoints, a missing url
yields 422 (framework validation), and in both cases the response is
independent of the downloader outcome and of the filesystem, i.e. the
downloader is never consulted. -/
theorem c5_empty_url_400 (o1 o2 : Except PyExc Info) (d1 d2 fs1 fs2 : List String) :
    mp3Dispatch (some "") o1 d1 fs1 = mp3Dispatch (some "") o2 d2 fs2
    ∧ (mp3Dispatch (some "") o1 d1 fs1).status = 400
    ∧ videoDispatch (some "") o1 d1 = videoDispatch (some "") o2 d2
    ∧ (videoDispatch (some "") o1 d1).status = 400
    ∧ mp3Dispatch none o1 d1 fs1 = mp3Dispatch none o2 d2 fs2
    ∧ (mp3Dispatch none o1 d1 fs1).status = 422
    ∧ videoDispatch none o1 d1 = videoDispatch none o2 d2
    ∧ (videoDispatch none o1 d1).status = 422 :=
  ⟨rfl, rfl, rfl, rfl, rfl, rfl, rfl, rfl⟩

/-- C6 counterexample: the configuration built for an /mp3 request has no
postprocessors entry at all (so no MP3/192kbps transcode step), its format
is bestaudio/best, and it is identical to the /download-video configuration
rather than differing in any mode-dependent way. -/
theorem c6_config_counterexample :
    (mp3RequestOpts "/tmp/cookies").postprocessors = none
    ∧ (mp3RequestOpts "/tmp/cookies").format = "bestaudio/best"
    ∧ mp3RequestOpts "/tmp/cookies" = videoRequestOpts "/tmp/cookies" :=
  ⟨rfl, rfl, rfl⟩

/-- C6 (amended): both endpoints build the identical configuration —
format bestaudio/best and no postprocessing step; nothing mode-dependent
distinguishes the /mp3 configuration from the /download-video one. -/
theorem c6_configs_identical (t : String) :
    (mp3RequestOpts t).format = "bestaudio/best"
    ∧ (mp3RequestOpts t).postprocessors = none
    ∧ mp3RequestOpts t = videoRequestOpts t :=
  ⟨rfl, rfl, rfl⟩

/-- C7 counterexample: in the audio pipeline the directory scan accepts a
file that does not end in .mp3 — with only a .webm file listed, the resolver
returns it instead of filtering it out. -/
theorem c7_no_mp3_filter_counterexample :
    blockingDownload (Info.mk none (some "My Clip") (some "vid42"))
        ["My Clip-vid42.webm"]
      = Except.ok (osPathJoin DOWNLOAD_DIR "My Clip-vid42.webm")
    ∧ strEnds "My Clip-vid42.webm" ".mp3" = false :=
  ⟨by rfl, by decide⟩

/-- C7 (amended): the directory-scan candidate set is characterised by the
name-start test alone, in both modes; no .mp3 suffix condition enters. -/
theorem c7_scan_only_filters_on_name_start (info : Info) (d : List String)
    (f : String) :
    f ∈ foundFiles info d ↔ f ∈ d ∧ strStarts f (fnamePre info) = true := by
  simp [foundFiles, List.mem_filter]

/-- C8 counterexample: with no credential string supplied, the temporary
cookie file is still staged on the filesystem seen by the downloader, and
its path is still passed as the cookiefile option. -/
theorem c8_cookiefile_always_staged_counterexample :
    ((stagedFs none "/tmp/tmp7f3k" []).contains "/tmp/tmp7f3k") = true
    ∧ (runYtDlpOpts outputTemplate "/tmp/tmp7f3k").cookiefile = some "/tmp/tmp7f3k" :=
  ⟨by decide, by rfl⟩

/-- C8 (amended): when no credential string is supplied the request is
unauthenticated in substance — the staged cookie file is empty — but a
cookie file is nevertheless created and passed in the configuration. -/
theorem c8_empty_cookiefile_staged (t : String) (fs : List String) (h : t ≠ "") :
    ((stagedFs none t fs).contains t) = true
    ∧ stagedContent none = ""
    ∧ (runYtDlpOpts outputTemplate t).cookiefile = some t := by
  refine ⟨?_, rfl, ?_⟩
  · simp [stagedFs]
  · simp [runYtDlpOpts, getYdlOpts, pyTruthy, h]

/-- C8 witness at a concrete temporary file name. -/
theorem c8_empty_cookiefile_staged_witness :
    ((stagedFs none "/tmp/tmpQ" []).contains "/tmp/tmpQ") = true
    ∧ stagedContent none = ""
    ∧ (runYtDlpOpts outputTemplate "/tmp/tmpQ").cookiefile = some "/tmp/tmpQ" :=
  c8_empty_cookiefile_staged "/tmp/tmpQ" [] (by decide)

/-- C9: the /downloads/{filename} handler performs no containment check: for
the traversal filename ../secret.txt it serves the joined path, which
resolves to secret.txt — a file outside the artifact directory. -/
theorem c9_path_traversal_bug :
    serveDownloadedFile "../secret.txt" ["secret.txt"]
      = Except.ok "downloads/../secret.txt"
    ∧ normalizePosix "downloads/../secret.txt" = "secret.txt"
    ∧ strStarts "secret.txt" (DOWNLOAD_DIR ++ "/") = false :=
  ⟨by rfl, by rfl, by decide⟩
